import Mathlib

/-!
Verification of the whisperlab audio buffering/windowing core
(`src/whisperlab/audio.py`).

Audio sample arrays are modelled as `List ℚ` together with a dtype tag:
every float32 value in `[-1, 1]` is a rational, and the one arithmetic
operation performed on samples (multiplication by `32768 = 2 ^ 15`) is
exact in float32 on that range, so rational arithmetic is a faithful
model of the float computations the claims are about.  numpy's
`astype(np.int16)` is modelled as C-style truncation toward zero
followed by a two's-complement wrap into `[-32768, 32767]`, which is
numpy's observable behaviour for the values reachable here.
-/

-- ===================== data model =====================

/-- Element dtypes a numpy audio array carries in this codebase. -/
inductive DType
  | float32
  | float64
  | int16
deriving DecidableEq

/-- A 1-D numpy array: element data plus its dtype tag. -/
structure NpArr where
  data : List ℚ
  dtype : DType
deriving DecidableEq

/-- The exceptions of audio.py (`EmptyFile`, `AudioOverflow`, `EmptyArray`,
`ArrayTypeError`), the generic `raise Exception(msg)` used by the
microphone classes, and the Python-level failures (`NameError`,
`AttributeError`, numpy's broadcast `ValueError`) that the code in
`VirtualMicrophone` and `roll` can actually hit. -/
inductive PyErr
  | emptyFile
  | audioOverflow
  | emptyArray
  | arrayTypeError
  | nameError (n : String)
  | attributeError (n : String)
  | exception (msg : String)
deriving DecidableEq

-- ===================== validation (audio.py lines 73-97) =====================

/-- `ValidateAudioArray(audio, dtype=np.float32)`: raises `EmptyArray` when
the array length is zero, then `ArrayTypeError` when the dtype differs from
the expected one, then `AudioOverflow` when `np.any(np.abs(audio) > 1)`. -/
def ValidateAudioArray (audio : NpArr) (dtype : DType) : Except PyErr Unit :=
  if audio.data.length = 0 then .error .emptyArray
  else if audio.dtype ≠ dtype then .error .arrayTypeError
  else if audio.data.any (fun s => 1 < |s|) then .error .audioOverflow
  else .ok ()

-- ===================== converter (audio.py lines 103-121) =====================

/-- Round toward zero: the C / numpy float-to-integer conversion. -/
def truncZ (q : ℚ) : Int := if q < 0 then ⌈q⌉ else ⌊q⌋

/-- Two's-complement wrap of an integer into the int16 range. -/
def int16wrap (z : Int) : Int := (z + 32768) % 65536 - 32768

/-- numpy elementwise scalar multiplication `audio * c`. -/
def npMulScalar (a : List ℚ) (c : ℚ) : List ℚ := a.map (fun s => s * c)

/-- numpy `.astype(np.int16)` on a float array: truncate each element toward
zero and wrap it into the int16 range. -/
def npAstypeInt16 (a : List ℚ) : List Int := a.map (fun q => int16wrap (truncZ q))

/-- `float32_to_int16(audio)`: validate, then `(audio * 32_768).astype(np.int16)`. -/
def float32_to_int16 (audio : NpArr) : Except PyErr (List Int) :=
  match ValidateAudioArray audio DType.float32 with
  | .error e => .error e
  | .ok _ => .ok (npAstypeInt16 (npMulScalar audio.data 32768))

/-- The per-sample conversion that `float32_to_int16` applies:
`s ↦ int16(trunc(s * 32768))`. -/
def convertSample (s : ℚ) : Int := int16wrap (truncZ (s * 32768))

-- ===================== roll (audio.py lines 127-156) =====================

/-- Python normalization of a slice lower bound for a sequence of length
`n`: a negative index counts from the end (clamped at 0), a nonnegative one
is clamped at `n`. -/
def pyStart (n : Nat) (start : Int) : Nat :=
  if start < 0 then ((n : Int) + start).toNat else min start.toNat n

/-- The Python slice `arr[start:]`. -/
def pySliceFrom (arr : List ℚ) (start : Int) : List ℚ :=
  arr.drop (pyStart arr.length start)

/-- `np.roll(arr, shift)` on a 1-D array: the element at index `i` moves to
index `(i + shift) mod n`, i.e. `result[j] = arr[(j - shift) mod n]`. -/
def npRoll (arr : List ℚ) (shift : Int) : List ℚ :=
  (List.range arr.length).map
    (fun (j : Nat) => arr.getD (((j : Int) - shift) % (arr.length : Int)).toNat 0)

/-- numpy slice assignment `arr[start:] = vals`.  The assignment succeeds
when the value array matches the slice length, or broadcasts when it has
length 1; any other shape raises `ValueError` (modelled as `none`). -/
def npSliceAssignFrom (arr : List ℚ) (start : Int) (vals : List ℚ) :
    Option (List ℚ) :=
  let s := pyStart arr.length start
  if vals.length = arr.length - s then
    some (arr.take s ++ vals)
  else if vals.length = 1 then
    some (arr.take s ++ List.replicate (arr.length - s) (vals.headD 0))
  else none

/-- `roll(buffer, samples)`:
```
if len(samples) > len(buffer):
    return samples[-len(buffer):]
left_shift = -len(samples)
buffer = np.roll(buffer, left_shift)
buffer[left_shift:] = samples
return buffer
```
`none` models the `ValueError` numpy raises when the slice assignment's
shapes do not match. -/
def roll (buffer samples : List ℚ) : Option (List ℚ) :=
  if samples.length > buffer.length then
    some (pySliceFrom samples (-(buffer.length : Int)))
  else
    npSliceAssignFrom (npRoll buffer (-(samples.length : Int)))
      (-(samples.length : Int)) samples

-- ===================== WaveBuffer (audio.py lines 162-189) =====================

/-- The `WaveBuffer` instance state: the held numpy array. -/
structure WaveBuffer where
  buffer : List ℚ
deriving DecidableEq

/-- `WaveBuffer(buffer_size)`: the buffer starts as `np.zeros(buffer_size)`. -/
def WaveBuffer.init (buffer_size : Nat) : WaveBuffer :=
  WaveBuffer.mk (List.replicate buffer_size 0)

/-- `WaveBuffer.get()`: return the held buffer. -/
def WaveBuffer.get (w : WaveBuffer) : List ℚ := w.buffer

/-- The default `WaveBuffer.process`: the identity on the samples. -/
def WaveBuffer.process (_w : WaveBuffer) (audio_samples : List ℚ) : List ℚ :=
  audio_samples

/-- `WaveBuffer.put(audio_samples)`: `self.buffer = self.process(audio_samples)`. -/
def WaveBuffer.put (w : WaveBuffer) (audio_samples : List ℚ) : WaveBuffer :=
  WaveBuffer.mk (w.process audio_samples)

/-- A sequence of `put` operations applied in order. -/
def runPuts (w : WaveBuffer) (ops : List (List ℚ)) : WaveBuffer :=
  ops.foldl (fun acc s => acc.put s) w

-- ===================== VirtualMicrophone (audio.py lines 221-235) =====================

/-- The integer constants defined at module level in audio.py.
`SAMPLES_PER_SECOND = 16_000` (line 18) is the only one. -/
def audioModuleGlobals : List (String × Int) := [("SAMPLES_PER_SECOND", 16000)]

/-- Runtime lookup of a module-level name, as Python performs it; `none`
means the lookup raises `NameError`. -/
def lookupGlobal (n : String) : Option Int :=
  (audioModuleGlobals.find? (fun p => p.1 = n)).map (fun p => p.2)

/-- `ValidateAudioFile(audio_file)`: raises `EmptyFile` when the file's
`st_size` is zero. -/
def ValidateAudioFile (fileSize : Nat) : Except PyErr Unit :=
  if fileSize = 0 then .error .emptyFile else .ok ()

/-- `load_audio_file(audio_file)`: validate the file, then decode it.
Decoding is delegated to `whisper.audio.load_audio` (an external
collaborator), so the decoded array is a parameter of the model. -/
def load_audio_file (fileSize : Nat) (decoded : List ℚ) : Except PyErr (List ℚ) :=
  match ValidateAudioFile fileSize with
  | .error e => .error e
  | .ok _ => .ok decoded

/-- The instance attributes of a `VirtualMicrophone`.  `segments` is an
`Option` because `__init__` computes the segment count only into a local
variable and never assigns `self.segments`; `none` models the attribute
being absent from the instance dictionary. -/
structure VirtualMicrophone where
  audio_file : String
  samples : List (List ℚ)
  index : Nat
  segments : Option Nat
deriving DecidableEq

/-- `VirtualMicrophone(audio_file)`.  The body evaluates
`len(samples) // SAMPLES_PER_WINDOW`, and `SAMPLES_PER_WINDOW` is defined
nowhere in the repository, so the name lookup is modelled through
`lookupGlobal`; were the name defined with value `w`, the rest of the body
would reshape the decoded samples into `len(samples) // w` windows. -/
def VirtualMicrophone.init (audio_file : String) (fileSize : Nat)
    (decoded : List ℚ) : Except PyErr VirtualMicrophone :=
  match load_audio_file fileSize decoded with
  | .error e => .error e
  | .ok samples =>
    match lookupGlobal "SAMPLES_PER_WINDOW" with
    | none => .error (.nameError "SAMPLES_PER_WINDOW")
    | some w =>
      let segments := samples.length / w.toNat
      .ok (VirtualMicrophone.mk audio_file
        ((samples.take (segments * w.toNat)).toChunks w.toNat) 0 none)

/-- `VirtualMicrophone.get()`:
```
if self.index >= self.segments:
    raise Exception("Unexpected end of samples")
samples = self.samples[self.index]
self.index += 1
```
Reading `self.segments` raises `AttributeError` when the attribute was
never assigned.  The method body binds the current window to a local and
has no `return` statement, so a successful call returns Python's `None`
(modelled as the `Option` value `none`) alongside the advanced state. -/
def VirtualMicrophone.get (m : VirtualMicrophone) :
    Except PyErr (Option (List ℚ) × VirtualMicrophone) :=
  match m.segments with
  | none => .error (.attributeError "segments")
  | some segs =>
    if m.index ≥ segs then .error (.exception "Unexpected end of samples")
    else .ok (none, VirtualMicrophone.mk m.audio_file m.samples (m.index + 1) m.segments)

-- ===================== save_audio_segment (audio.py lines 264-289) =====================

/-- A `base_path` argument, split as `pathlib` sees it: parent directory
and stem.  `with_suffix` replaces the extension. -/
structure BasePath where
  parent : String
  stem : String
deriving DecidableEq

/-- `base_path.with_suffix(ext)`. -/
def BasePath.with_suffix (p : BasePath) (ext : String) : String :=
  p.parent ++ "/" ++ p.stem ++ ext

/-- The filesystem effects `save_audio_segment` can perform, in order. -/
inductive FsOp
  | mkdirParents (dir : String)
  | exportWav (path : String) (pcm : List Int)
  | writeText (path : String) (text : String)
deriving DecidableEq

/-- `save_audio_segment(audio, text, base_path)`: create the parent
directory (`mkdir(parents=True, exist_ok=True)`), build the `.txt` and
`.wav` paths, convert the samples with `float32_to_int16` (inside the
`pydub.AudioSegment(...)` call that precedes the WAV export), export the
WAV, then write the text file.  The result is the ordered list of
filesystem effects that were performed, and the raised error if any. -/
def save_audio_segment (audio : NpArr) (text : String) (base_path : BasePath) :
    List FsOp × Option PyErr :=
  let dirOps := [FsOp.mkdirParents base_path.parent]
  let text_path := base_path.with_suffix ".txt"
  let audio_path := base_path.with_suffix ".wav"
  match float32_to_int16 audio with
  | .error e => (dirOps, some e)
  | .ok pcm =>
    (dirOps ++ [FsOp.exportWav audio_path pcm, FsOp.writeText text_path text], none)

-- ===================== heap model of roll (for the frame property) =====================

/-- A heap of numpy arrays; an array reference is an index into it. -/
abbrev Heap := List (List ℚ)

/-- Dereference an array. -/
def heapGet (h : Heap) (r : Nat) : List ℚ := h.getD r []

/-- Allocate a fresh array, returning the extended heap and the new
reference. -/
def halloc (h : Heap) (a : List ℚ) : Heap × Nat := (h ++ [a], h.length)

/-- `roll(buffer, samples)` with explicit array identity, to settle which
arrays the call writes.  `samples[-len(buffer):]` produces a view of the
`samples` array (modelled as a fresh cell holding the sliced contents —
no write occurs on that path).  `buffer = np.roll(buffer, left_shift)`
allocates a fresh array and rebinds the local name to it, so the slice
assignment `buffer[left_shift:] = samples` writes to that fresh array,
never to the caller's argument. -/
def rollH (h : Heap) (buf smp : Nat) : Option (Heap × Nat) :=
  let B := heapGet h buf
  let S := heapGet h smp
  if S.length > B.length then
    let hr := halloc h (pySliceFrom S (-(B.length : Int)))
    some (hr.1, hr.2)
  else
    let hb := halloc h (npRoll B (-(S.length : Int)))
    match npSliceAssignFrom (heapGet hb.1 hb.2) (-(S.length : Int)) S with
    | none => none
    | some contents => some ((hb.1).set hb.2 contents, hb.2)


-- ===================== helper lemmas =====================

/-- `np.roll` preserves the array length. -/
lemma npRoll_length (arr : List ℚ) (shift : Int) : (npRoll arr shift).length = arr.length := by
  unfold npRoll
  rw [List.length_map, List.length_range]

/-- Rolling left by `m ≤ n` positions rotates the list: the first `m`
elements move to the back. -/
lemma npRoll_neg (B : List ℚ) (m : Nat) (hm : m ≤ B.length) :
    npRoll B (-(m : Int)) = B.drop m ++ B.take m := by
  have hlen : (npRoll B (-(m : Int))).length = B.length := npRoll_length B _
  apply List.ext_getElem
  · rw [hlen, List.length_append, List.length_drop, List.length_take]
    omega
  intro j h1 h2
  rw [hlen] at h1
  unfold npRoll
  rw [List.getElem_map, List.getElem_range]
  have hcast : ((j : Int) - -(m : Int)) % ((B.length : Nat) : Int)
      = (((j + m) % B.length : Nat) : Int) := by
    push_cast
    ring_nf
  rw [hcast, Int.toNat_natCast]
  have hmod : (j + m) % B.length < B.length := Nat.mod_lt _ (by omega)
  rw [List.getD_eq_getElem _ _ hmod, List.getElem_append]
  by_cases hj : j < B.length - m
  · have heq : (j + m) % B.length = j + m := Nat.mod_eq_of_lt (by omega)
    rw [dif_pos (by rw [List.length_drop]; omega)]
    rw [List.getElem_drop]
    simp only [heq]
    simp only [Nat.add_comm j m]
  · have hge2 : B.length ≤ j + m := by omega
    have heq : (j + m) % B.length = j + m - B.length := by
      rw [Nat.mod_eq_sub_mod hge2]
      exact Nat.mod_eq_of_lt (by omega)
    rw [dif_neg (by rw [List.length_drop]; omega)]
    rw [List.getElem_take]
    simp only [List.length_drop, heq]
    congr 1
    omega

/-- The Python start index `-m` on a sequence of length `n ≥ m`, `m ≥ 1`,
normalizes to `n - m`. -/
lemma pyStart_neg (n m : Nat) (h1 : 1 ≤ m) (hm : m ≤ n) : pyStart n (-(m : Int)) = n - m := by
  unfold pyStart
  rw [if_pos (by omega : -(m : Int) < 0)]
  omega

/-- The second branch of `roll`, for `1 ≤ len(S) ≤ len(B)`: the rotated
buffer's first `len(B) - len(S)` elements (which are `B[len(S):]`) followed
by the samples. -/
lemma roll_small (B S : List ℚ) (h1 : 1 ≤ S.length) (hm : S.length ≤ B.length) :
    roll B S = some (B.drop S.length ++ S) := by
  unfold roll
  rw [if_neg (by omega)]
  unfold npSliceAssignFrom
  simp only [npRoll_length, pyStart_neg B.length S.length h1 hm]
  rw [if_pos (by omega)]
  rw [npRoll_neg B S.length hm]
  rw [List.take_left' (by simp)]

/-- The buffer a sequence of `put`s leaves behind is the last `put`'s
samples (or the starting content when there was none). -/
lemma runPuts_get (w : WaveBuffer) (ops : List (List ℚ)) :
    (runPuts w ops).get = ops.getLastD w.get := by
  induction ops generalizing w with
  | nil => rfl
  | cons s rest ih =>
    show (runPuts (w.put s) rest).get = (s :: rest).getLastD w.get
    rw [ih, List.getLastD_cons]
    rfl

/-- Truncation toward zero is monotone. -/
lemma truncZ_mono {a b : ℚ} (hab : a ≤ b) : truncZ a ≤ truncZ b := by
  unfold truncZ
  by_cases ha : a < 0 <;> by_cases hb : b < 0
  · rw [if_pos ha, if_pos hb]
    exact Int.ceil_le_ceil hab
  · rw [if_pos ha, if_neg hb]
    calc ⌈a⌉ ≤ 0 := Int.ceil_le.mpr (by exact_mod_cast ha.le)
      _ ≤ ⌊b⌋ := Int.floor_nonneg.mpr (not_lt.mp hb)
  · exact absurd (lt_of_le_of_lt hab hb) ha
  · rw [if_neg ha, if_neg hb]
    exact Int.floor_mono hab

/-- Truncating a rational `≥ -32768` stays `≥ -32768`. -/
lemma truncZ_lower {q : ℚ} (h : -32768 ≤ q) : -32768 ≤ truncZ q := by
  unfold truncZ
  by_cases hq : q < 0
  · rw [if_pos hq]
    have hc : ((-32768 : Int) : ℚ) ≤ q := by exact_mod_cast h
    calc (-32768 : Int) = ⌈((-32768 : Int) : ℚ)⌉ := (Int.ceil_intCast _).symm
      _ ≤ ⌈q⌉ := Int.ceil_le_ceil hc
  · rw [if_neg hq]
    have : (0 : Int) ≤ ⌊q⌋ := Int.floor_nonneg.mpr (not_lt.mp hq)
    omega

/-- Truncating a rational `< 32768` stays `≤ 32767`. -/
lemma truncZ_upper {q : ℚ} (h : q < 32768) : truncZ q ≤ 32767 := by
  unfold truncZ
  by_cases hq : q < 0
  · rw [if_pos hq]
    have : ⌈q⌉ ≤ (0 : Int) := Int.ceil_le.mpr (by exact_mod_cast hq.le)
    omega
  · rw [if_neg hq]
    have : ⌊q⌋ < (32768 : Int) := by
      rw [Int.floor_lt]
      exact_mod_cast h
    omega

/-- The int16 wrap is the identity on values already in range. -/
lemma int16wrap_eq_self {z : Int} (h1 : -32768 ≤ z) (h2 : z ≤ 32767) : int16wrap z = z := by
  unfold int16wrap
  rw [Int.emod_eq_of_lt (by omega) (by omega)]
  omega

/-- The sample `0.0` converts to `0`. -/
lemma convertSample_zero : convertSample 0 = 0 := by
  unfold convertSample
  have h0 : (0 : ℚ) * 32768 = ((0 : Int) : ℚ) := by norm_num
  rw [h0]
  unfold truncZ
  rw [if_neg (by norm_num), Int.floor_intCast]
  unfold int16wrap
  decide

/-- The boundary sample `1.0` maps to `32768`, which the int16 cast wraps
to `-32768`. -/
lemma convertSample_one : convertSample 1 = -32768 := by
  unfold convertSample
  have h1 : (1 : ℚ) * 32768 = ((32768 : Int) : ℚ) := by norm_num
  rw [h1]
  unfold truncZ
  rw [if_neg (by norm_num), Int.floor_intCast]
  unfold int16wrap
  decide

/-- On validated input, `float32_to_int16` is the elementwise conversion. -/
lemma float32_to_int16_ok (audio : NpArr)
    (hv : ValidateAudioArray audio DType.float32 = .ok ()) :
    float32_to_int16 audio = .ok (audio.data.map convertSample) := by
  unfold float32_to_int16
  rw [hv]
  unfold npAstypeInt16 npMulScalar
  rw [List.map_map]
  rfl

/-- Allocating a fresh array does not change existing cells. -/
lemma heapGet_append_lt (h : Heap) (x : List ℚ) (i : Nat) (hi : i < h.length) :
    heapGet (h ++ [x]) i = heapGet h i := by
  unfold heapGet
  rw [List.getD_eq_getElem?_getD, List.getD_eq_getElem?_getD, List.getElem?_append_left hi]

/-- Writing one cell does not change the others. -/
lemma heapGet_set_ne (h : Heap) (i : Nat) (c : List ℚ) (j : Nat) (hne : i ≠ j) :
    heapGet (h.set i c) j = heapGet h j := by
  unfold heapGet
  rw [List.getD_eq_getElem?_getD, List.getD_eq_getElem?_getD, List.getElem?_set_ne hne]

-- ===================== claim theorems =====================

/-- C1: for every buffer `B` with `len(B) = N ≥ 1` and every samples array
`S`: if `len(S) ≥ N` then `roll(B, S)` succeeds and returns the last `N`
elements of `S`, and if `1 ≤ len(S) < N` it succeeds and returns the
concatenation of `B[len(S):]` followed by `S`. -/
theorem roll_window_semantics (B S : List ℚ) (hN : 1 ≤ B.length) :
    (B.length ≤ S.length → roll B S = some (S.drop (S.length - B.length))) ∧
    (1 ≤ S.length → S.length < B.length → roll B S = some (B.drop S.length ++ S)) := by
  constructor
  · intro hge
    rcases Nat.lt_or_ge B.length S.length with hlt | hle
    · unfold roll
      rw [if_pos hlt]
      unfold pySliceFrom
      rw [pyStart_neg S.length B.length hN (le_of_lt hlt)]
    · have heq : S.length = B.length := le_antisymm hle hge
      rw [roll_small B S (by omega) hle]
      congr 1
      rw [heq, List.drop_length, Nat.sub_self, List.drop_zero, List.nil_append]
  · intro h1 h2
    exact roll_small B S h1 (le_of_lt h2)

/-- Witness for C1, at the docstring's own example `roll([1,2,3], [4,5])`. -/
theorem roll_window_semantics_witness :
    1 ≤ ([1, 2, 3] : List ℚ).length ∧ roll ([1, 2, 3] : List ℚ) [4, 5] = some [3, 4, 5] :=
  ⟨by decide,
    ((roll_window_semantics [1, 2, 3] [4, 5] (by decide)).2 (by decide) (by decide)).trans
      (by decide)⟩

/-- C2: contrary to the claim that `roll` has no failure modes and returns
the buffer unchanged for empty samples, `roll(zeros(3), [])` raises a
`ValueError`: `left_shift = -0 = 0`, so `buffer[0:] = samples` assigns a
length-0 array across the whole length-3 buffer, a numpy broadcast
failure (modelled as `none`). -/
theorem roll_empty_samples_value_error : roll ([0, 0, 0] : List ℚ) [] = none := rfl

/-- C3: constructing a `VirtualMicrophone` on any non-empty audio file
raises `NameError` before any window is produced, because
`SAMPLES_PER_WINDOW` (line 225) is defined nowhere in the repository.
Evaluated on a 4-byte file decoding to three samples. -/
theorem virtualMicrophone_init_name_error :
    VirtualMicrophone.init "speech.wav" 4 [0, 0, 0]
      = .error (.nameError "SAMPLES_PER_WINDOW") := rfl

/-- C4: the Ready/Exhausted state machine is unreachable in the code.
Construction never succeeds (`NameError`, or `EmptyFile` for an empty
file), and on the instance state `__init__` would produce — `segments`
never assigned — every `get()`, at every cursor position, raises
`AttributeError("segments")` (line 232 reads `self.segments`), not the
exhaustion error. -/
theorem virtualMicrophone_get_attribute_error :
    (∀ f n d, VirtualMicrophone.init f n d =
        (if n = 0 then .error .emptyFile else .error (.nameError "SAMPLES_PER_WINDOW"))) ∧
    (∀ a s i, VirtualMicrophone.get (VirtualMicrophone.mk a s i none)
        = .error (.attributeError "segments")) := by
  constructor
  · intro f n d
    cases n with
    | zero => rfl
    | succ k => rfl
  · intro a s i
    rfl

/-- C5 counterexample: a `WaveBuffer(3)` no longer holds a length-3 buffer
after `put([1.0])` — `put` stores `process(samples)` verbatim, so the held
buffer takes the length of the samples. -/
theorem waveBuffer_fixed_length_cex :
    ((((WaveBuffer.init 3).put [(1 : ℚ)]).get.length = 3)) = False :=
  eq_false (by decide)

/-- C5 amended: a `WaveBuffer(N)` starts with a length-`N` zero buffer, and
after any sequence of `put` operations (default identity `process`) the
held buffer is exactly the samples of the last `put` (the initial zeros
when no `put` occurred) — so `len(get())` equals the last put's sample
count, not `N`. -/
theorem waveBuffer_put_replaces (N : Nat) (ops : List (List ℚ)) :
    (WaveBuffer.init N).get.length = N ∧
    (runPuts (WaveBuffer.init N) ops).get = ops.getLastD (List.replicate N 0) := by
  constructor
  · simp [WaveBuffer.init, WaveBuffer.get]
  · rw [runPuts_get]
    rfl

/-- C6 counterexample: the conversion is not monotone on all of `[-1, 1]`:
at `s1 = 0 < s2 = 1` the output drops from `0` to `-32768`, because
`1.0 * 32768 = 32768` wraps around in the int16 cast. -/
theorem convertSample_mono_cex :
    (∀ s1 s2 : ℚ, -1 ≤ s1 → s1 ≤ 1 → -1 ≤ s2 → s2 ≤ 1 → s1 < s2 →
      convertSample s1 ≤ convertSample s2) = False := by
  apply eq_false
  intro hmono
  have h := hmono 0 1 (by norm_num) (by norm_num) (by norm_num) (by norm_num) (by norm_num)
  rw [convertSample_zero, convertSample_one] at h
  omega

/-- C6 amended: `float32_to_int16`'s per-sample conversion is monotone on
`[-1, 1)`: for `-1 ≤ s1 < s2 < 1` the outputs satisfy
`output(s1) ≤ output(s2)`.  (Only the right endpoint `s2 = 1`, where the
cast wraps `32768` to `-32768`, must be excluded.) -/
theorem convertSample_mono (s1 s2 : ℚ) (h1 : -1 ≤ s1) (h12 : s1 < s2) (h2 : s2 < 1) :
    convertSample s1 ≤ convertSample s2 := by
  unfold convertSample
  have e1 : -32768 ≤ s1 * 32768 := by nlinarith
  have e2 : s1 * 32768 < 32768 := by nlinarith
  have e3 : -32768 ≤ s2 * 32768 := by nlinarith
  have e4 : s2 * 32768 < 32768 := by nlinarith
  rw [int16wrap_eq_self (truncZ_lower e1) (truncZ_upper e2),
      int16wrap_eq_self (truncZ_lower e3) (truncZ_upper e4)]
  exact truncZ_mono (by nlinarith)

/-- Witness for the amended C6, at `s1 = 0`, `s2 = 1/2`. -/
theorem convertSample_mono_witness :
    (-1 ≤ (0 : ℚ) ∧ (0 : ℚ) < 1/2 ∧ (1/2 : ℚ) < 1) ∧
      convertSample 0 ≤ convertSample (1/2) :=
  ⟨by norm_num, convertSample_mono 0 (1/2) (by norm_num) (by norm_num) (by norm_num)⟩

/-- C7: on every input that passes validation, `float32_to_int16` maps each
sample `s` to `round_towards_zero(s * 32768)` cast (with wraparound) to a
16-bit signed integer, and the output length equals the input length. -/
theorem float32_to_int16_maps (audio : NpArr)
    (hv : ValidateAudioArray audio DType.float32 = .ok ()) :
    float32_to_int16 audio = .ok (audio.data.map convertSample) ∧
      (audio.data.map convertSample).length = audio.data.length :=
  ⟨float32_to_int16_ok audio hv, List.length_map audio.data convertSample⟩

/-- Witness for C7 on the valid one-sample array `[0.0]`. -/
theorem float32_to_int16_maps_witness :
    ValidateAudioArray (NpArr.mk [0] DType.float32) DType.float32 = .ok () ∧
      float32_to_int16 (NpArr.mk [0] DType.float32)
        = .ok ((NpArr.mk [(0 : ℚ)] DType.float32).data.map convertSample) :=
  ⟨rfl, (float32_to_int16_maps (NpArr.mk [0] DType.float32) rfl).1⟩

/-- C8: `validate_array` fails with `EmptyArray` on zero length; otherwise
with `ArrayTypeError` on a dtype mismatch; otherwise with `AudioOverflow`
when some sample's absolute value exceeds 1 — in that order — and accepts
every non-empty array of the expected dtype whose values all lie in
`[-1, 1]` (the endpoints included). -/
theorem validateAudioArray_cases (audio : NpArr) (t : DType) :
    (audio.data.length = 0 → ValidateAudioArray audio t = .error .emptyArray) ∧
    (audio.data.length ≠ 0 → audio.dtype ≠ t →
      ValidateAudioArray audio t = .error .arrayTypeError) ∧
    (audio.data.length ≠ 0 → audio.dtype = t → (∃ s ∈ audio.data, 1 < |s|) →
      ValidateAudioArray audio t = .error .audioOverflow) ∧
    (audio.data.length ≠ 0 → audio.dtype = t → (∀ s ∈ audio.data, |s| ≤ 1) →
      ValidateAudioArray audio t = .ok ()) := by
  refine ⟨?_, ?_, ?_, ?_⟩ <;> unfold ValidateAudioArray
  · intro h
    rw [if_pos h]
  · intro h1 h2
    rw [if_neg h1, if_pos h2]
  · intro h1 h2 h3
    rw [if_neg h1, if_neg (by simp [h2]), if_pos ?_]
    simp only [List.any_eq_true, decide_eq_true_eq]
    exact h3
  · intro h1 h2 h3
    rw [if_neg h1, if_neg (by simp [h2]), if_neg ?_]
    simp only [List.any_eq_true, decide_eq_true_eq, not_exists]
    push_neg
    intro s hs
    exact h3 s hs

/-- Witness for C8's acceptance case, on `[-1.0, 1.0]` — exactly the
boundary values. -/
theorem validateAudioArray_cases_witness :
    (([(-1 : ℚ), 1] : List ℚ).length ≠ 0 ∧ (∀ s ∈ ([(-1 : ℚ), 1] : List ℚ), |s| ≤ 1)) ∧
      ValidateAudioArray (NpArr.mk [-1, 1] DType.float32) DType.float32 = .ok () :=
  ⟨⟨by decide, by decide⟩,
    (validateAudioArray_cases (NpArr.mk [-1, 1] DType.float32) DType.float32).2.2.2
      (by decide) rfl (by decide)⟩

/-- C9: `roll` never mutates the caller's buffer array: whenever
`roll(buffer, samples)` succeeds, the heap cell holding the argument buffer
contains the same elements afterwards (`np.roll` returns a fresh array, and
the slice assignment writes only to that fresh array). -/
theorem roll_no_buffer_mutation (h : Heap) (buf smp : Nat) (hbuf : buf < h.length)
    (h2 : Heap) (r : Nat) (hsucc : rollH h buf smp = some (h2, r)) :
    heapGet h2 buf = heapGet h buf := by
  unfold rollH at hsucc
  by_cases hc : (heapGet h smp).length > (heapGet h buf).length
  · rw [if_pos hc] at hsucc
    simp only [halloc, Option.some.injEq, Prod.mk.injEq] at hsucc
    rw [← hsucc.1]
    exact heapGet_append_lt h _ buf hbuf
  · rw [if_neg hc] at hsucc
    simp only [halloc] at hsucc
    rcases hA : npSliceAssignFrom
        (heapGet (h ++ [npRoll (heapGet h buf) (-((heapGet h smp).length : Int))])
          h.length)
        (-((heapGet h smp).length : Int)) (heapGet h smp) with _ | c
    · rw [hA] at hsucc
      cases hsucc
    · rw [hA] at hsucc
      simp only [Option.some.injEq, Prod.mk.injEq] at hsucc
      rw [← hsucc.1]
      rw [heapGet_set_ne _ _ _ _ (by omega)]
      exact heapGet_append_lt h _ buf hbuf

/-- Witness for C9: a heap holding `buffer = [1,2,3]` and
`samples = [4,5]`; after the call the buffer cell still holds `[1,2,3]`. -/
theorem roll_no_buffer_mutation_witness :
    (0 < ([[(1 : ℚ), 2, 3], [4, 5]] : Heap).length) ∧
      heapGet [[(1 : ℚ), 2, 3], [4, 5], [3, 4, 5]] 0
        = heapGet [[(1 : ℚ), 2, 3], [4, 5]] 0 :=
  ⟨by decide,
    roll_no_buffer_mutation [[1, 2, 3], [4, 5]] 0 1 (by decide)
      [[1, 2, 3], [4, 5], [3, 4, 5]] 2 (by decide)⟩

/-- C10: when the audio fails validation, `save_audio_segment` has already
created the parent directory (its first statement) and then raises the
validation error out of `float32_to_int16`; the effect trace is exactly the
directory creation — neither the `.wav` nor the `.txt` file is written. -/
theorem save_audio_segment_mkdir_first (audio : NpArr) (text : String)
    (base_path : BasePath) (e : PyErr)
    (hv : ValidateAudioArray audio DType.float32 = .error e) :
    save_audio_segment audio text base_path
      = ([FsOp.mkdirParents base_path.parent], some e) := by
  unfold save_audio_segment float32_to_int16
  rw [hv]

/-- Witness for C10 on an empty (hence invalid) audio array. -/
theorem save_audio_segment_mkdir_first_witness :
    ValidateAudioArray (NpArr.mk [] DType.float32) DType.float32 = .error .emptyArray ∧
      save_audio_segment (NpArr.mk [] DType.float32) "hello" (BasePath.mk "out" "seg")
        = ([FsOp.mkdirParents "out"], some .emptyArray) :=
  ⟨rfl, save_audio_segment_mkdir_first (NpArr.mk [] DType.float32) "hello"
    (BasePath.mk "out" "seg") .emptyArray rfl⟩
